import Mathlib

/-!
Verification of the serialization layer of a recipe-sharing backend
(`api/serializers.py`), shallowly embedded in Lean 4.

Bytes are modelled as `Nat` values below 256, strings as Lean `String`,
database rows as structures, Python exceptions as an explicit error type
threaded through `Except`.
-/

set_option maxRecDepth 4096

/-- Python exception / error outcomes that the embedded code can produce. -/
inductive PyError where
  /-- unpacking a split of the wrong arity (`ValueError`) -/
  | valueError : PyError
  /-- `base64.b64decode` rejecting a badly padded payload (`binascii.Error`) -/
  | binasciiError : PyError
  /-- attribute access on `None` (`AttributeError`) -/
  | attributeError : PyError
  /-- a DRF field validation failure (`serializers.ValidationError`) -/
  | validationError : PyError
deriving DecidableEq, Repr

/-! ## Base64 (model of Python's `base64.b64encode` / `base64.b64decode`) -/

/-- The standard base64 alphabet, in index order. -/
def b64Chars : List Char :=
  ['A','B','C','D','E','F','G','H','I','J','K','L','M',
   'N','O','P','Q','R','S','T','U','V','W','X','Y','Z',
   'a','b','c','d','e','f','g','h','i','j','k','l','m',
   'n','o','p','q','r','s','t','u','v','w','x','y','z',
   '0','1','2','3','4','5','6','7','8','9','+','/']

/-- The padding character of base64. -/
def padChar : Char := '='

/-- Character for a 6-bit value. -/
def encodeChar (v : Nat) : Char := b64Chars.getD v '?'

/-- Index of a character in the base64 alphabet, `none` for a non-alphabet
character (padding included). -/
def decodeChar (c : Char) : Option Nat := b64Chars.findIdx? (fun x => x = c)

/-- Whether a character belongs to the base64 alphabet proper. -/
def isB64Char (c : Char) : Bool := b64Chars.contains c

/-- Base64 encoding of a byte list, three bytes to four characters, with
`=` padding on a trailing group of one or two bytes. -/
def b64encode : List Nat → List Char
  | [] => []
  | [a] => [encodeChar (a / 4), encodeChar (a % 4 * 16), padChar, padChar]
  | [a, b] => [encodeChar (a / 4), encodeChar (a % 4 * 16 + b / 16),
               encodeChar (b % 16 * 4), padChar]
  | a :: b :: c :: rest =>
      encodeChar (a / 4) :: encodeChar (a % 4 * 16 + b / 16) ::
      encodeChar (b % 16 * 4 + c / 64) :: encodeChar (c % 64) :: b64encode rest

/-- Decoding of a base64 character sequence in groups of four, enforcing the
padding check: padding may appear only at the end of the final group, and a
leftover group of fewer than four characters is rejected. -/
def decodeQuads : List Char → Option (List Nat)
  | [] => some []
  | c1 :: c2 :: c3 :: c4 :: rest =>
    match decodeChar c1, decodeChar c2 with
    | some v1, some v2 =>
      if c3 = padChar then
        (if c4 = padChar ∧ rest = [] then some [v1 * 4 + v2 / 16] else none)
      else
        match decodeChar c3 with
        | some v3 =>
          if c4 = padChar then
            (if rest = [] then some [v1 * 4 + v2 / 16, v2 % 16 * 16 + v3 / 4]
             else none)
          else
            match decodeChar c4, decodeQuads rest with
            | some v4, some tail =>
                some ((v1 * 4 + v2 / 16) :: (v2 % 16 * 16 + v3 / 4) ::
                      (v3 % 4 * 64 + v4) :: tail)
            | _, _ => none
        | none => none
    | _, _ => none
  | _ => none

/-- Model of `base64.b64decode(s)` with default `validate=False`: characters
outside the alphabet and the padding character are discarded before the
padding check, then the remainder is decoded in quads. -/
def b64decode (s : List Char) : Option (List Nat) :=
  decodeQuads (s.filter (fun c => isB64Char c || c = padChar))

theorem decodeChar_encodeChar : ∀ v < 64, decodeChar (encodeChar v) = some v := by
  decide

theorem encodeChar_ne_pad : ∀ v < 64, encodeChar v ≠ padChar := by
  decide

theorem isB64Char_encodeChar : ∀ v < 64, isB64Char (encodeChar v) = true := by
  decide

theorem decodeQuads_b64encode :
    ∀ (bs : List Nat), (∀ x ∈ bs, x < 256) →
      decodeQuads (b64encode bs) = some bs
  | [], _ => by simp [b64encode, decodeQuads]
  | [a], h => by
      have ha : a < 256 := h a (by simp)
      have h1 : a / 4 < 64 := by omega
      have h2 : a % 4 * 16 < 64 := by omega
      simp [b64encode, decodeQuads, decodeChar_encodeChar _ h1,
        decodeChar_encodeChar _ h2]
      omega
  | [a, b], h => by
      have ha : a < 256 := h a (by simp)
      have hb : b < 256 := h b (by simp)
      have h1 : a / 4 < 64 := by omega
      have h2 : a % 4 * 16 + b / 16 < 64 := by omega
      have h3 : b % 16 * 4 < 64 := by omega
      simp [b64encode, decodeQuads, decodeChar_encodeChar _ h1,
        decodeChar_encodeChar _ h2, decodeChar_encodeChar _ h3,
        encodeChar_ne_pad _ h3]
      omega
  | a :: b :: c :: d :: rest, h => by
      have ha : a < 256 := h a (by simp)
      have hb : b < 256 := h b (by simp)
      have hc : c < 256 := h c (by simp)
      have h1 : a / 4 < 64 := by omega
      have h2 : a % 4 * 16 + b / 16 < 64 := by omega
      have h3 : b % 16 * 4 + c / 64 < 64 := by omega
      have h4 : c % 64 < 64 := by omega
      have ih := decodeQuads_b64encode (d :: rest)
        (fun x hx => h x (by simp at hx ⊢; tauto))
      simp [b64encode, decodeQuads, decodeChar_encodeChar _ h1,
        decodeChar_encodeChar _ h2, decodeChar_encodeChar _ h3,
        decodeChar_encodeChar _ h4, encodeChar_ne_pad _ h3,
        encodeChar_ne_pad _ h4, ih]
      omega
  | a :: b :: [c], h => by
      have ha : a < 256 := h a (by simp)
      have hb : b < 256 := h b (by simp)
      have hc : c < 256 := h c (by simp)
      have h1 : a / 4 < 64 := by omega
      have h2 : a % 4 * 16 + b / 16 < 64 := by omega
      have h3 : b % 16 * 4 + c / 64 < 64 := by omega
      have h4 : c % 64 < 64 := by omega
      simp [b64encode, decodeQuads, decodeChar_encodeChar _ h1,
        decodeChar_encodeChar _ h2, decodeChar_encodeChar _ h3,
        decodeChar_encodeChar _ h4, encodeChar_ne_pad _ h3,
        encodeChar_ne_pad _ h4]
      omega

theorem b64encode_chars_pass_filter :
    ∀ (bs : List Nat), (∀ x ∈ bs, x < 256) →
      ∀ ch ∈ b64encode bs, (isB64Char ch || ch = padChar) = true
  | [], _ => by simp [b64encode]
  | [a], h => by
      have ha : a < 256 := h a (by simp)
      have h1 : a / 4 < 64 := by omega
      have h2 : a % 4 * 16 < 64 := by omega
      simp only [b64encode, List.mem_cons, List.not_mem_nil, or_false]
      rintro ch (rfl | rfl | rfl | rfl) <;>
        simp [isB64Char_encodeChar _ h1, isB64Char_encodeChar _ h2]
  | [a, b], h => by
      have ha : a < 256 := h a (by simp)
      have hb : b < 256 := h b (by simp)
      have h1 : a / 4 < 64 := by omega
      have h2 : a % 4 * 16 + b / 16 < 64 := by omega
      have h3 : b % 16 * 4 < 64 := by omega
      simp only [b64encode, List.mem_cons, List.not_mem_nil, or_false]
      rintro ch (rfl | rfl | rfl | rfl) <;>
        simp [isB64Char_encodeChar _ h1, isB64Char_encodeChar _ h2,
          isB64Char_encodeChar _ h3]
  | a :: b :: c :: rest, h => by
      have ha : a < 256 := h a (by simp)
      have hb : b < 256 := h b (by simp)
      have hc : c < 256 := h c (by simp)
      have h1 : a / 4 < 64 := by omega
      have h2 : a % 4 * 16 + b / 16 < 64 := by omega
      have h3 : b % 16 * 4 + c / 64 < 64 := by omega
      have h4 : c % 64 < 64 := by omega
      have ih := b64encode_chars_pass_filter rest
        (fun x hx => h x (by simp [hx]))
      intro ch hch
      rcases List.mem_cons.mp hch with rfl | hch
      · simp [isB64Char_encodeChar _ h1]
      rcases List.mem_cons.mp hch with rfl | hch
      · simp [isB64Char_encodeChar _ h2]
      rcases List.mem_cons.mp hch with rfl | hch
      · simp [isB64Char_encodeChar _ h3]
      rcases List.mem_cons.mp hch with rfl | hch
      · simp [isB64Char_encodeChar _ h4]
      · exact ih ch hch

theorem b64decode_b64encode (bs : List Nat) (h : ∀ x ∈ bs, x < 256) :
    b64decode (b64encode bs) = some bs := by
  unfold b64decode
  rw [List.filter_eq_self.mpr (b64encode_chars_pass_filter bs h)]
  exact decodeQuads_b64encode bs h

/-! ## Image decoder (`Base64ImageField.to_internal_value`) -/

/-- A named binary attachment, as built by Django's `ContentFile`. -/
structure ContentFile where
  content : List Nat
  name : String
deriving DecidableEq, Repr

/-- Input to the image field: either a raw string or an already-binary file
(e.g. a multipart upload). -/
inductive ImageInput where
  | str : String → ImageInput
  | file : ContentFile → ImageInput
deriving DecidableEq, Repr

/-- The marker the source tests with `data.startswith('data:image')`. -/
def dataImageMarker : String := "data:image"

/-- The delimiter the source splits on. -/
def b64Delim : String := ";base64,"

/-- Model of Python `s.startswith(m)`: the marker's characters are a prefix
of the string's characters. -/
def pyStartsWith (s m : String) : Bool := m.toList.isPrefixOf s.toList

/-- Worker for `pySplit`: split a character list on every occurrence of the
separator, scanning left to right.  The fuel argument only drives structural
recursion (the callers always pass at least `length + 1`, which each step's
consumption of at least one character can never exhaust for a nonempty
separator). -/
def splitOnCharsAux (sep : List Char) : Nat → List Char → List (List Char)
  | _, [] => [[]]
  | 0, l => [l]
  | fuel + 1, c :: cs =>
    if sep.isPrefixOf (c :: cs) then
      [] :: splitOnCharsAux sep fuel ((c :: cs).drop sep.length)
    else
      match splitOnCharsAux sep fuel cs with
      | [] => [[c]]
      | h :: t => (c :: h) :: t

/-- Model of Python `s.split(sep)` for a nonempty separator: the list of
fragments between the non-overlapping occurrences of `sep`, in order. -/
def pySplit (s sep : String) : List String :=
  (splitOnCharsAux sep.toList (s.toList.length + 1) s.toList).map
    (fun l => String.mk l)

/-- Model of `Base64ImageField.to_internal_value`: a string beginning with the
data-URL image marker is split on the base64 delimiter (Python tuple unpacking
of a split of arity other than two raises `ValueError`), its payload is base64
decoded (a padding failure raises `binascii.Error`), and a `ContentFile` named
after the media subtype is produced.  Any other input is passed unchanged to
the base `ImageField` handling, modelled as the identity (the base field's own
image validation is framework behavior outside the excerpt). -/
def Base64ImageField.to_internal_value (data : ImageInput) :
    Except PyError ImageInput :=
  match data with
  | .str s =>
    if pyStartsWith s dataImageMarker then
      match pySplit s b64Delim with
      | [img_format, img_str] =>
        match b64decode img_str.toList with
        | some bytes =>
            .ok (.file ⟨bytes,
              ("img.") ++ ((pySplit img_format ("/")).getLastD (""))⟩)
        | none => .error .binasciiError
      | _ => .error .valueError
    else .ok (.str s)
  | .file f => .ok (.file f)

/-- Whether a decode outcome is an error. -/
def raisesError (r : Except PyError ImageInput) : Bool :=
  match r with
  | .error _ => true
  | .ok _ => false

/-! ## Users, requests, query parameters -/

/-- Minified recipe shape (`RecipeMinifiedSerializer`): id, name, image,
cooking_time. -/
structure RecipeMin where
  id : Nat
  name : String
  image : String
  cooking_time : Nat
deriving DecidableEq, Repr

/-- The ambient HTTP request: its query parameters and the authenticated
user's primary key. -/
structure Request where
  queryParams : List (String × String)
  user : Nat
deriving DecidableEq, Repr

/-- Lookup of a query parameter (`QueryDict.get` with default). -/
def getParam (qp : List (String × String)) (k : String) : Option String :=
  (qp.find? (fun p => p.1 == k)).map (fun p => p.2)

/-- The query-parameter key consulted by `is_subscribed_user`. -/
def isSubscribedKey : String := "is_subscribed"

/-- Model of `CustomUserSerializer.is_subscribed_user`.  The serializer
context may lack a request (`self.context.get("request")` returns `None`, and
the following attribute access raises `AttributeError`).  With a request, the
`is_subscribed` query parameter is read with default `False`; Python
truthiness on the result means: parameter absent or equal to the empty string
gives `False`, any other string value triggers the subscription lookup
`user.following.filter(pk=obj.pk).exists()`, modelled as membership of the
(viewer, target) pair in the subscription rows. -/
def CustomUserSerializer.is_subscribed_user (ctx_request : Option Request)
    (subscriptions : List (Nat × Nat)) (objPk : Nat) : Except PyError Bool :=
  match ctx_request with
  | none => .error .attributeError
  | some request =>
    match getParam request.queryParams isSubscribedKey with
    | none => .ok false
    | some v =>
      if v = "" then .ok false
      else .ok (subscriptions.contains (request.user, objPk))

/-- A persisted user row.  `password` is the stored credential (`none` while
unset), `recipes` the user's recipes in insertion order. -/
structure UserRow where
  id : Nat
  email : String
  username : String
  first_name : String
  last_name : String
  password : Option String
  recipes : List RecipeMin
deriving DecidableEq, Repr

/-- Wire shape produced by `CustomUserSerializer`. -/
structure UserRepr where
  id : Nat
  email : String
  username : String
  first_name : String
  last_name : String
  is_subscribed : Bool
  recipes : List RecipeMin
  recipes_count : Nat
deriving DecidableEq, Repr

/-- Model of rendering a user through `CustomUserSerializer`: all plain fields
pass through, `is_subscribed` is computed by `is_subscribed_user` (whose
`AttributeError` aborts the whole rendering), `recipes_count` is the
annotated recipe count. -/
def CustomUserSerializer.data (ctx_request : Option Request)
    (subscriptions : List (Nat × Nat)) (u : UserRow) :
    Except PyError UserRepr :=
  match CustomUserSerializer.is_subscribed_user ctx_request subscriptions u.id with
  | .error e => .error e
  | .ok flag =>
      .ok ⟨u.id, u.email, u.username, u.first_name, u.last_name, flag,
           u.recipes, u.recipes.length⟩

/-! ## Subscription representation -/

/-- Model of `SubscriptionSerializer.to_representation`, restricted to the
`recipes` field it re-derives (all other fields pass through the base mapping
unchanged).  The source computes
`recipes_limit = int(self.context.get('recipes_limit', 0))`; since `int(...)`
always returns an integer, the subsequent `is not None` guard always holds and
the slice `instance.recipes.all()[:recipes_limit]` is always taken — the
`else` branch returning all recipes is dead code. -/
def SubscriptionSerializer.to_representation (ctx_recipes_limit : Option Nat)
    (recipes : List RecipeMin) : List RecipeMin :=
  let recipes_limit : Option Nat := some (ctx_recipes_limit.getD 0)
  match recipes_limit with
  | some n => recipes.take n
  | none => recipes

/-! ## Sign-up (`CustomUserSignUpSerializer`) -/

/-- Validated sign-up payload: the serializer's declared fields. -/
structure SignUpData where
  email : String
  username : String
  first_name : String
  last_name : String
  password : String
deriving DecidableEq, Repr

/-- Algorithm/iterations/salt header of a Django password hash. -/
def hashHeader : String := "pbkdf2_sha256$600000$salt$"

/-- Modelled from the spec: Django's standard hashing routine used by
`instance.set_password` (the identity store is an external collaborator of the
excerpt) stores an algorithm-prefixed, salted digest of the password — never
the plaintext.  The digest body here is a stand-in keyed permutation of the
input characters; what the development relies on is only the shape
`header ++ digest`, with the digest no shorter than the input. -/
def make_password (p : String) : String :=
  hashHeader ++ String.mk (p.toList.map (fun c => Char.ofNat ((c.toNat + 7) % 128)))

/-- The base `ModelSerializer.create` step for a user: constructs the row from
the fields it is handed.  The sign-up `create` pops `password` first, so this
step runs with no password present (`none`). -/
def baseUserCreate (email username first_name last_name : String) : UserRow :=
  ⟨0, email, username, first_name, last_name, none, []⟩

/-- Model of `CustomUserSignUpSerializer.create`: pop the password from the
validated payload, run the base construct step without it, then hash the
password via `set_password` and save. -/
def CustomUserSignUpSerializer.create (d : SignUpData) : UserRow :=
  let password := d.password
  let inst := baseUserCreate d.email d.username d.first_name d.last_name
  { inst with password := some (make_password password) }

/-- Output shape of the sign-up serializer: `password` is `write_only`, so the
representation carries only the remaining declared fields. -/
def CustomUserSignUpSerializer.to_representation (u : UserRow) :
    List (String × String) :=
  [(("id"), toString u.id), (("email"), u.email), (("username"), u.username),
   (("first_name"), u.first_name), (("last_name"), u.last_name)]

/-! ## Recipe data model and create path -/

/-- A tag row (id, name, color, slug). -/
structure TagRow where
  id : Nat
  name : String
  color : String
  slug : String
deriving DecidableEq, Repr

/-- A row of the ingredient reference table. -/
structure IngredientRow where
  id : Nat
  name : String
  measurement_unit : String
deriving DecidableEq, Repr

/-- One raw ingredient entry of the inbound payload: `{id, amount}`. -/
structure RawIngredientEntry where
  id : Nat
  amount : Nat
deriving DecidableEq, Repr

/-- One validated ingredient entry: the resolved `Ingredient` row (the
`PrimaryKeyRelatedField` writes it under the source name `ingredient`) and
the amount. -/
structure IngredientEntry where
  ingredient : IngredientRow
  amount : Nat
deriving DecidableEq, Repr

/-- A persisted recipe row.  `author` is `none` while no author has been
assigned to the row. -/
structure RecipeRow where
  id : Nat
  name : String
  cooking_time : Nat
  text : String
  image : String
  tags : List TagRow
  author : Option Nat
deriving DecidableEq, Repr

/-- A persisted `RecipeIngredient` join row: recipe id, resolved ingredient,
amount. -/
structure RecipeIngredientRow where
  recipe : Nat
  ingredient : IngredientRow
  amount : Nat
deriving DecidableEq, Repr

/-- The persisted state the create path touches: recipe rows and
recipe-ingredient join rows, each in insertion order. -/
structure DBState where
  recipes : List RecipeRow
  recipe_ingredients : List RecipeIngredientRow
deriving DecidableEq, Repr

/-- Constrained reference lookup of an ingredient id in the reference table
(the queryset of `PrimaryKeyRelatedField`). -/
def resolveIngredient (table : List IngredientRow) (i : Nat) :
    Option IngredientRow :=
  table.find? (fun row => row.id == i)

/-- Model of validating the `ingredients` list through
`RecipeIngredientCreateSerializer(many=True)`: each entry's `id` is resolved
against the ingredient reference table; an id with no matching row raises a
field validation error that rejects the whole payload. -/
def RecipeIngredientCreateSerializer.validate (table : List IngredientRow) :
    List RawIngredientEntry → Except PyError (List IngredientEntry)
  | [] => .ok []
  | e :: rest =>
    match resolveIngredient table e.id with
    | none => .error .validationError
    | some row =>
      match RecipeIngredientCreateSerializer.validate table rest with
      | .error err => .error err
      | .ok tail => .ok (⟨row, e.amount⟩ :: tail)

/-- Validated recipe-create payload: exactly the serializer's declared fields
(`name`, `cooking_time`, `text`, `tags`, `ingredients`, `image`, `pub_date`;
the timestamp is omitted here as no claim touches it).  There is no `author`
field: the author can never come from client-supplied input. -/
structure RecipeCreatePayload where
  name : String
  cooking_time : Nat
  text : String
  image : String
  tags : List TagRow
  ingredients : List IngredientEntry
deriving DecidableEq, Repr

/-- Raw (pre-validation) recipe-create payload, with unresolved ingredient
ids. -/
structure RecipeCreateRawPayload where
  name : String
  cooking_time : Nat
  text : String
  image : String
  tags : List TagRow
  ingredients : List RawIngredientEntry
deriving DecidableEq, Repr

/-- Model of `RecipeCreateSerializer.create`.  The source reads
`author = self.context.get('request').user` and then never uses the local
`author` again; the base `super().create(validated_data)` receives a payload
with the `ingredients` key popped and no `author` key at all, so the recipe
row is stored with no author assigned (`none`).  Afterwards one
`RecipeIngredient` row per validated entry is saved, binding the new recipe's
id, the resolved ingredient and the amount, in input order. -/
def RecipeCreateSerializer.create (ctx_user newId : Nat)
    (validated_data : RecipeCreatePayload) (db : DBState) :
    RecipeRow × DBState :=
  let author := ctx_user
  let _ := author
  let ingredients := validated_data.ingredients
  let inst : RecipeRow :=
    { id := newId, name := validated_data.name,
      cooking_time := validated_data.cooking_time,
      text := validated_data.text, image := validated_data.image,
      tags := validated_data.tags, author := none }
  let rows := ingredients.map (fun e =>
    RecipeIngredientRow.mk inst.id e.ingredient e.amount)
  (inst, { recipes := db.recipes ++ [inst],
           recipe_ingredients := db.recipe_ingredients ++ rows })

/-- A whole create request: DRF first validates the payload (resolving every
ingredient id through the constrained reference lookup) and only on success
calls `create`; a validation failure leaves the database untouched. -/
def recipe_create_request (table : List IngredientRow) (ctx_user newId : Nat)
    (raw : RecipeCreateRawPayload) (db : DBState) :
    Except PyError RecipeRow × DBState :=
  match RecipeIngredientCreateSerializer.validate table raw.ingredients with
  | .error e => (.error e, db)
  | .ok entries =>
    let validated : RecipeCreatePayload :=
      ⟨raw.name, raw.cooking_time, raw.text, raw.image, raw.tags, entries⟩
    let res := RecipeCreateSerializer.create ctx_user newId validated db
    (.ok res.1, res.2)

/-! ## Recipe read rendering -/

/-- Wire shape of one ingredient line (`RecipeIngredientSerializer`): id,
name and measurement_unit come from the related `Ingredient`, amount from the
join row. -/
structure RecipeIngredientRepr where
  id : Nat
  name : String
  measurement_unit : String
  amount : Nat
deriving DecidableEq, Repr

/-- Model of `RecipeIngredientSerializer(many=True)` over join rows. -/
def RecipeIngredientSerializer.data (rows : List RecipeIngredientRow) :
    List RecipeIngredientRepr :=
  rows.map (fun r => ⟨r.ingredient.id, r.ingredient.name,
                      r.ingredient.measurement_unit, r.amount⟩)

/-- Wire shape of a full recipe (`RecipeSerializer`): every persisted field
except the publish timestamp, nested tags, nested ingredient lines, nested
author. -/
structure RecipeRepr where
  id : Nat
  name : String
  cooking_time : Nat
  text : String
  image : String
  tags : List TagRow
  ingredients : List RecipeIngredientRepr
  author : Option UserRepr
deriving DecidableEq, Repr

/-- Model of rendering `RecipeSerializer(...).data`: tags pass through, the
ingredient lines are the join rows of this recipe, and the author is rendered
through `CustomUserSerializer` with the same serialization context — unless
the author attribute is null, which DRF renders as `None` without invoking
the nested serializer.  An error in the nested author rendering aborts the
whole representation. -/
def RecipeSerializer.data (ctx_request : Option Request)
    (subscriptions : List (Nat × Nat)) (recipe : RecipeRow)
    (author_row : Option UserRow) (rows : List RecipeIngredientRow) :
    Except PyError RecipeRepr :=
  let author_repr : Except PyError (Option UserRepr) :=
    match author_row with
    | none => .ok none
    | some u =>
      match CustomUserSerializer.data ctx_request subscriptions u with
      | .error e => .error e
      | .ok r => .ok (some r)
  match author_repr with
  | .error e => .error e
  | .ok a =>
    .ok ⟨recipe.id, recipe.name, recipe.cooking_time, recipe.text,
         recipe.image, recipe.tags,
         RecipeIngredientSerializer.data
           (rows.filter (fun r => r.recipe == recipe.id)), a⟩

/-- Model of `RecipeCreateSerializer.to_representation`: the source evaluates
`RecipeSerializer(instance).data`, instantiating the read serializer with no
`context` keyword, so the nested serialization context is empty and
`context.get("request")` yields `None`. -/
def RecipeCreateSerializer.to_representation (subscriptions : List (Nat × Nat))
    (recipe : RecipeRow) (author_row : Option UserRow)
    (rows : List RecipeIngredientRow) : Except PyError RecipeRepr :=
  RecipeSerializer.data none subscriptions recipe author_row rows

/-! ## Helper lemmas -/

theorem make_password_length (p : String) :
    (make_password p).length = 26 + p.length := by
  rw [make_password, String.length_append]
  have h1 : hashHeader.length = 26 := rfl
  have h2 : (String.mk (p.toList.map (fun c => Char.ofNat ((c.toNat + 7) % 128)))).length
      = p.length := by
    rw [String.length_mk, List.length_map]
    rfl
  omega

theorem make_password_ne_plain (p : String) : make_password p ≠ p := by
  intro h
  have hlen := congrArg String.length h
  rw [make_password_length] at hlen
  omega

theorem validate_unresolved_error (table : List IngredientRow) :
    ∀ (l : List RawIngredientEntry),
      (∃ e ∈ l, resolveIngredient table e.id = none) →
      RecipeIngredientCreateSerializer.validate table l = .error .validationError
  | [], h => by simp at h
  | e :: rest, h => by
      rcases h with ⟨x, hx, hres⟩
      rcases List.mem_cons.mp hx with rfl | hx
      · simp [RecipeIngredientCreateSerializer.validate, hres]
      · unfold RecipeIngredientCreateSerializer.validate
        have ih := validate_unresolved_error table rest ⟨x, hx, hres⟩
        rw [ih]
        cases hr : resolveIngredient table e.id <;> simp

/-! ## Claims -/

/-- Five recipes of a followee, in insertion order. -/
def fiveRecipes : List RecipeMin :=
  [⟨1, "r1", "i1", 1⟩, ⟨2, "r2", "i2", 2⟩, ⟨3, "r3", "i3", 3⟩,
   ⟨4, "r4", "i4", 4⟩, ⟨5, "r5", "i5", 5⟩]

/-- C1: evaluation of the subscription representation at the spec's own test
case.  With `recipes_limit` unset the context default 0 is sliced with
(`[:0]`), so the recipes list comes back empty — not, as claimed, with all of
the followee's five recipes; with limit 2 the first two recipes are returned
in insertion order, as claimed for the positive-limit half. -/
theorem C1_limit_unset_yields_empty_not_all :
    SubscriptionSerializer.to_representation none fiveRecipes = []
    ∧ SubscriptionSerializer.to_representation (some 0) fiveRecipes = []
    ∧ SubscriptionSerializer.to_representation (some 2) fiveRecipes
        = [⟨1, "r1", "i1", 1⟩, ⟨2, "r2", "i2", 2⟩]
    ∧ fiveRecipes.length = 5 :=
  ⟨rfl, rfl, rfl, rfl⟩

/-- C2: in `RecipeCreateSerializer.create` the author resolved from the
request context is never attached to the created row — the local `author` is
dead — and the validated payload carries no author field, so the persisted
recipe always has no author, contradicting the claim that it is the
authenticated context user. -/
theorem C2_author_never_attached (ctx_user newId : Nat)
    (validated_data : RecipeCreatePayload) (db : DBState) :
    (RecipeCreateSerializer.create ctx_user newId validated_data db).1.author
      = none :=
  rfl

/-- C3: a string that begins with the data-URL image marker but whose split
on the base64 delimiter does not have exactly two parts, or whose payload
fails base64 decoding, makes `to_internal_value` fail with an error — the
image is never silently dropped — while non-string input bypasses decoding
entirely and is passed through. -/
theorem C3_malformed_image_errors_nonstring_bypasses (s : String)
    (hpre : pyStartsWith s dataImageMarker = true)
    (hmal : (pySplit s b64Delim).length ≠ 2 ∨
      ∀ img_format img_str, pySplit s b64Delim = [img_format, img_str] →
        b64decode img_str.toList = none) :
    raisesError (Base64ImageField.to_internal_value (.str s)) = true
    ∧ ∀ f : ContentFile,
        Base64ImageField.to_internal_value (.file f) = .ok (.file f) := by
  refine ⟨?_, fun f => rfl⟩
  have hdec : ∀ a b, pySplit s b64Delim = [a, b] → b64decode b.toList = none := by
    intro a b hab
    rcases hmal with hlen | hright
    · exact absurd (by rw [hab]; rfl) hlen
    · exact hright a b hab
  rcases hl : pySplit s b64Delim with _ | ⟨a, _ | ⟨b, _ | ⟨c, rest⟩⟩⟩
  · simp [Base64ImageField.to_internal_value, hpre, hl, raisesError]
  · simp [Base64ImageField.to_internal_value, hpre, hl, raisesError]
  · have hd := hdec a b hl
    simp only [String.toList] at hd
    simp [Base64ImageField.to_internal_value, hpre, hl, hd, raisesError]
  · simp [Base64ImageField.to_internal_value, hpre, hl, raisesError]

/-- C3 witness: a data-URL string with no base64 delimiter errors, and a
binary file input passes through unchanged. -/
theorem C3_witness :
    raisesError (Base64ImageField.to_internal_value (.str ("data:image/png")))
      = true
    ∧ Base64ImageField.to_internal_value (.file ⟨[72], "img.png"⟩)
        = .ok (.file ⟨[72], "img.png"⟩) := by
  have h := C3_malformed_image_errors_nonstring_bypasses ("data:image/png")
    (by decide) (Or.inl (by decide))
  exact ⟨h.1, h.2 _⟩

/-- C4: the sign-up create pops the password before the base construct step
(which therefore stores no credential), the saved credential is the hash of
the input and never the literal input string, and the output representation
carries no password key. -/
theorem C4_password_never_stored_plaintext (d : SignUpData) :
    (CustomUserSignUpSerializer.create d).password
        = some (make_password d.password)
    ∧ (CustomUserSignUpSerializer.create d).password ≠ some d.password
    ∧ (baseUserCreate d.email d.username d.first_name d.last_name).password
        = none
    ∧ ("password") ∉ (CustomUserSignUpSerializer.to_representation
        (CustomUserSignUpSerializer.create d)).map Prod.fst := by
  refine ⟨rfl, ?_, rfl, ?_⟩
  · intro h
    simp only [CustomUserSignUpSerializer.create, baseUserCreate,
      Option.some.injEq] at h
    exact make_password_ne_plain d.password h
  · simp [CustomUserSignUpSerializer.to_representation]

/-- C5: when the `is_subscribed` query parameter is absent, the computed flag
is false even though a subscription row from the viewer to the target user
exists. -/
theorem C5_flag_false_without_param (request : Request)
    (subscriptions : List (Nat × Nat)) (objPk : Nat)
    (habsent : getParam request.queryParams isSubscribedKey = none)
    (hrow : (request.user, objPk) ∈ subscriptions) :
    CustomUserSerializer.is_subscribed_user (some request) subscriptions objPk
      = .ok false := by
  simp [CustomUserSerializer.is_subscribed_user, habsent]

/-- C5 witness: viewer 1 follows user 2, yet without the query parameter the
flag is false. -/
theorem C5_witness :
    CustomUserSerializer.is_subscribed_user (some ⟨[], 1⟩) [(1, 2)] 2
      = .ok false :=
  C5_flag_false_without_param ⟨[], 1⟩ [(1, 2)] 2 rfl (by simp)

/-- C6: every validated ingredient entry is persisted as one join row
binding the new recipe id, the resolved ingredient and the amount, in input
order; the created row carries no author (see C2), and DRF renders an absent
nested author attribute as null without invoking the nested serializer, so
re-rendering the created recipe with the author attribute the create path
actually produced succeeds, and the response's ingredients list has exactly
N entries whose amounts match the input in the same order (the new primary
key being fresh, no pre-existing join row is picked up). -/
theorem C6_create_response_matches_input (ctx_user newId : Nat)
    (validated_data : RecipeCreatePayload) (db : DBState)
    (subscriptions : List (Nat × Nat))
    (hfresh : ∀ r ∈ db.recipe_ingredients, r.recipe ≠ newId) :
    (RecipeCreateSerializer.create ctx_user newId validated_data db).2.recipe_ingredients
        = db.recipe_ingredients ++ validated_data.ingredients.map (fun e =>
            RecipeIngredientRow.mk newId e.ingredient e.amount)
    ∧ (RecipeCreateSerializer.create ctx_user newId validated_data db).1.author = none
    ∧ (RecipeCreateSerializer.to_representation subscriptions
          (RecipeCreateSerializer.create ctx_user newId validated_data db).1
          none
          (RecipeCreateSerializer.create ctx_user newId validated_data db).2.recipe_ingredients).map
        (fun r => r.ingredients.map (fun i => i.amount))
        = .ok (validated_data.ingredients.map (fun e => e.amount))
    ∧ (RecipeCreateSerializer.to_representation subscriptions
          (RecipeCreateSerializer.create ctx_user newId validated_data db).1
          none
          (RecipeCreateSerializer.create ctx_user newId validated_data db).2.recipe_ingredients).map
        (fun r => r.ingredients.length)
        = .ok validated_data.ingredients.length := by
  have hfilter : ((db.recipe_ingredients ++ validated_data.ingredients.map (fun e =>
          RecipeIngredientRow.mk newId e.ingredient e.amount)).filter
        (fun r => r.recipe == newId))
      = validated_data.ingredients.map (fun e =>
          RecipeIngredientRow.mk newId e.ingredient e.amount) := by
    rw [List.filter_append]
    have h1 : db.recipe_ingredients.filter (fun r => r.recipe == newId) = [] := by
      rw [List.filter_eq_nil_iff]
      intro r hr
      simpa using hfresh r hr
    have h2 : (validated_data.ingredients.map (fun e =>
        RecipeIngredientRow.mk newId e.ingredient e.amount)).filter
          (fun r => r.recipe == newId)
        = validated_data.ingredients.map (fun e =>
            RecipeIngredientRow.mk newId e.ingredient e.amount) := by
      rw [List.filter_eq_self]
      intro r hr
      rcases List.mem_map.mp hr with ⟨e, he, rfl⟩
      simp
    rw [h1, h2, List.nil_append]
  refine ⟨rfl, rfl, ?_, ?_⟩ <;>
  · show (RecipeSerializer.data none subscriptions
        (RecipeCreateSerializer.create ctx_user newId validated_data db).1 none
        (db.recipe_ingredients ++ validated_data.ingredients.map (fun e =>
            RecipeIngredientRow.mk newId e.ingredient e.amount))).map _ = _
    simp only [RecipeSerializer.data, RecipeIngredientSerializer.data]
    rw [show (RecipeCreateSerializer.create ctx_user newId validated_data db).1.id
        = newId from rfl]
    rw [hfilter]
    simp [Except.map, List.map_map]

/-- Concrete two-ingredient payload for the C6 witness. -/
def c6Payload : RecipeCreatePayload :=
  ⟨"soup", 5, "text", "img", [],
   [⟨⟨1, "salt", "g"⟩, 3⟩, ⟨⟨2, "pepper", "g"⟩, 7⟩]⟩

/-- C6 witness: creating with two ingredient entries in an empty database
persists the two join rows in order, the created row has no author, and the
re-render succeeds with a two-entry ingredients list whose amounts are
[3, 7]. -/
theorem C6_witness :
    (RecipeCreateSerializer.create 1 10 c6Payload ⟨[], []⟩).2.recipe_ingredients
        = (⟨[], []⟩ : DBState).recipe_ingredients ++ c6Payload.ingredients.map (fun e =>
            RecipeIngredientRow.mk 10 e.ingredient e.amount)
    ∧ (RecipeCreateSerializer.create 1 10 c6Payload ⟨[], []⟩).1.author = none
    ∧ (RecipeCreateSerializer.to_representation []
          (RecipeCreateSerializer.create 1 10 c6Payload ⟨[], []⟩).1
          none
          (RecipeCreateSerializer.create 1 10 c6Payload ⟨[], []⟩).2.recipe_ingredients).map
        (fun r => r.ingredients.map (fun i => i.amount))
        = .ok (c6Payload.ingredients.map (fun e => e.amount))
    ∧ (RecipeCreateSerializer.to_representation []
          (RecipeCreateSerializer.create 1 10 c6Payload ⟨[], []⟩).1
          none
          (RecipeCreateSerializer.create 1 10 c6Payload ⟨[], []⟩).2.recipe_ingredients).map
        (fun r => r.ingredients.length)
        = .ok c6Payload.ingredients.length :=
  C6_create_response_matches_input 1 10 c6Payload ⟨[], []⟩ [] (by simp)

/-- C7: a create request whose payload contains an ingredient id that the
constrained reference lookup cannot resolve is rejected whole by validation:
the result is a validation error and the database is exactly as before — no
recipe row and no ingredient-line row is persisted. -/
theorem C7_missing_ingredient_rejects_whole_request (table : List IngredientRow)
    (ctx_user newId : Nat) (raw : RecipeCreateRawPayload) (db : DBState)
    (h : ∃ e ∈ raw.ingredients, resolveIngredient table e.id = none) :
    (recipe_create_request table ctx_user newId raw db).1
        = .error .validationError
    ∧ (recipe_create_request table ctx_user newId raw db).2 = db := by
  have hv := validate_unresolved_error table raw.ingredients h
  unfold recipe_create_request
  rw [hv]
  exact ⟨rfl, rfl⟩

/-- C7 witness: the reference table holds only ingredient 1; a payload using
id 2 is rejected and the (empty) database is untouched. -/
theorem C7_witness :
    (recipe_create_request [⟨1, "salt", "g"⟩] 1 10
        ⟨"soup", 5, "text", "img", [], [⟨2, 3⟩]⟩ ⟨[], []⟩).1
      = .error .validationError
    ∧ (recipe_create_request [⟨1, "salt", "g"⟩] 1 10
        ⟨"soup", 5, "text", "img", [], [⟨2, 3⟩]⟩ ⟨[], []⟩).2 = ⟨[], []⟩ :=
  C7_missing_ingredient_rejects_whole_request [⟨1, "salt", "g"⟩] 1 10
    ⟨"soup", 5, "text", "img", [], [⟨2, 3⟩]⟩ ⟨[], []⟩
    ⟨⟨2, 3⟩, by simp, rfl⟩

/-- C8: a valid data-URL payload is an encoding `b64encode bs` of some byte
sequence; decoding it to bytes and re-encoding those bytes reproduces the
original payload string. -/
theorem C8_b64_roundtrip (payload : List Char) (bs : List Nat)
    (hbytes : ∀ x ∈ bs, x < 256) (hvalid : payload = b64encode bs) :
    (b64decode payload).map b64encode = some payload := by
  subst hvalid
  rw [b64decode_b64encode bs hbytes]
  rfl

/-- C8 witness: round trip at the payload encoding the bytes of "Hi". -/
theorem C8_witness :
    (b64decode (b64encode [72, 105])).map b64encode
      = some (b64encode [72, 105]) :=
  C8_b64_roundtrip (b64encode [72, 105]) [72, 105] (by decide) rfl

/-- C9: any present, non-empty value of the `is_subscribed` query parameter —
the strings "false" and "0" included — makes the computation perform the
subscription lookup and return whether a following-relation row from the
viewer to the target exists: the gate is string non-emptiness, not a parsed
boolean. -/
theorem C9_nonempty_param_triggers_lookup (request : Request)
    (subscriptions : List (Nat × Nat)) (objPk : Nat) (v : String)
    (hv : getParam request.queryParams isSubscribedKey = some v)
    (hne : v ≠ "") :
    CustomUserSerializer.is_subscribed_user (some request) subscriptions objPk
      = .ok (subscriptions.contains (request.user, objPk)) := by
  simp [CustomUserSerializer.is_subscribed_user, hv, hne]

/-- C9 witness: with `is_subscribed=false` in the query string and a
subscription row (1, 2) present, the computation returns true. -/
theorem C9_witness :
    CustomUserSerializer.is_subscribed_user
        (some ⟨[(isSubscribedKey, ("false"))], 1⟩) [(1, 2)] 2 = .ok true := by
  have h := C9_nonempty_param_triggers_lookup
    ⟨[(isSubscribedKey, ("false"))], 1⟩ [(1, 2)] 2 ("false") rfl (by decide)
  simpa using h

/-- C10: re-rendering a created recipe through the full read transformer with
an empty serialization context always aborts with an `AttributeError` from
the nested author representation dereferencing the absent request, instead of
returning the canonical nested read shape. -/
theorem C10_create_representation_raises (subscriptions : List (Nat × Nat))
    (recipe : RecipeRow) (author_row : UserRow)
    (rows : List RecipeIngredientRow) :
    RecipeCreateSerializer.to_representation subscriptions recipe
      (some author_row) rows = .error .attributeError :=
  rfl
